import Mathlib

/-!
Verification of the reactive data-filtering and aggregation core of the
electricity dashboard (`app.py`).

Timestamps are modelled as nanoseconds since the Unix epoch (the resolution
of the dataframe library's datetime type); dates handed to the range filter
are day numbers since the epoch.  Numeric values are rationals.  Each Dash
callback is embedded as a pure function from its inputs (the filtered rows,
the widget values, the trigger id, the theme template) to a value describing
the figure it builds.
-/

namespace EntregaDash

/-- Nanoseconds in one second. -/
def secNs : Nat := 1000000000

/-- Nanoseconds in one hour. -/
def hourNs : Nat := 3600 * secNs

/-- Nanoseconds in one day. -/
def dayNs : Nat := 24 * hourNs

/-- One row of the loaded dataframe: a timestamp (ns since epoch) and the
numeric columns as an association list from column name to value. -/
structure Obs where
  t : Nat
  vals : List (String × Rat)
deriving DecidableEq, Repr

/-- Column lookup on a row (all columns used by the app exist in the data). -/
def Obs.get (r : Obs) (c : String) : Rat := (r.vals.lookup c).getD 0

/-- Gregorian date (year, month, day) from a count of days since 1970-01-01,
the standard civil-from-days algorithm; embeds `to_period("M")` and `dt` field
derivation of the loader. -/
def civilFromDays (days : Nat) : Nat × Nat × Nat :=
  let z := days + 719468
  let era := z / 146097
  let doe := z % 146097
  let yoe := (doe - doe / 1460 + doe / 36524 - doe / 146096) / 365
  let y := yoe + era * 400
  let doy := doe - (365 * yoe + yoe / 4 - yoe / 100)
  let mp := (5 * doy + 2) / 153
  let d := doy - (153 * mp + 2) / 5 + 1
  let m := if mp < 10 then mp + 3 else mp - 9
  if m ≤ 2 then (y + 1, m, d) else (y, m, d)

/-- Calendar-month bucket key of a timestamp (`MonthStart` in the source):
linearised as year * 12 + (month - 1), a bijective encoding of the first
instant of the month. -/
def monthIdx (t : Nat) : Nat :=
  let c := civilFromDays (t / dayNs)
  c.1 * 12 + (c.2.1 - 1)

/-- Canonical weekday order used by `update_heatmap` (`order` in the source). -/
def weekdayNames : List String :=
  ["Monday", "Tuesday", "Wednesday", "Thursday", "Friday", "Saturday", "Sunday"]

/-- `day_name()` of a timestamp: 1970-01-01 was a Thursday. -/
def weekdayName (t : Nat) : String :=
  weekdayNames.getD ((t / dayNs + 3) % 7) ""

/-- `dt.hour` of a timestamp. -/
def hourOf (t : Nat) : Nat := (t / hourNs) % 24

/-- Result of `_filter`: the selected rows, together with whether the returned
frame is a fresh object (`.copy()`) or the input object itself (`return dfin`). -/
structure FilterResult where
  rows : List Obs
  fresh : Bool
deriving DecidableEq, Repr

/-- The range filter `_filter(dfin, start, end)` of the source: when both
bounds are present it keeps the rows with
`start ≤ t ≤ end + 1 day - 1 second` and copies the frame; when either bound
is `None` it returns the input frame object unfiltered. -/
def _filter (dfin : List Obs) (start stop : Option Nat) : FilterResult :=
  match start, stop with
  | some s, some e =>
      ⟨dfin.filter fun r =>
        decide (s * dayNs ≤ r.t) && decide (r.t ≤ e * dayNs + dayNs - secNs), true⟩
  | _, _ => ⟨dfin, false⟩

/-- The filter the spec describes for C1: rows with `start ≤ t < end + 1 day`
(the spec claims this is what `_filter` computes; compared against `_filter`). -/
def rangeFilterSpec (dfin : List Obs) (s e : Nat) : List Obs :=
  dfin.filter fun r => decide (s * dayNs ≤ r.t) && decide (r.t < e * dayNs + dayNs)

/-- `switch_theme(n_light, n_dark)` of the source: reads `ctx.triggered_id` and
returns the dark template exactly when the dark button was the trigger; the
click-count arguments are never consulted.  The returned store value is
modelled by its template string. -/
def switch_theme (n_light n_dark : Option Nat) (triggered_id : Option String) : String :=
  if triggered_id = some "btn-dark" then "plotly_dark" else "plotly"

/-- The theme selector as the spec words it for C3: compare the two cumulative
click counts, the dark (second-listed) theme winning exactly when its count is
strictly greater (compared against `switch_theme`). -/
def themeByCountsSpec (n_light n_dark : Option Nat) : String :=
  if n_light.getD 0 < n_dark.getD 0 then "plotly_dark" else "plotly"

/-- Sorted deduplicated group keys, as `groupby` (sort=True) produces them. -/
def sortedKeys (l : List Nat) : List Nat :=
  List.insertionSort (· ≤ ·) l.dedup

/-- The distinct month buckets of a frame, ascending (`groupby("MonthStart")`). -/
def monthKeys (rows : List Obs) : List Nat :=
  sortedKeys (rows.map fun r => monthIdx r.t)

/-- The rows of a frame falling in one month bucket. -/
def groupRows (rows : List Obs) (k : Nat) : List Obs :=
  rows.filter fun r => monthIdx r.t == k

/-- Sum of a group's values (`sum` aggregation). -/
def sumQ (l : List Rat) : Rat := l.sum

/-- Mean of a group's values (`mean` aggregation; groups are nonempty). -/
def meanQ (l : List Rat) : Rat := l.sum / (l.length : Rat)

/-- Maximum of a group's values (`max` aggregation; groups are nonempty). -/
def maxQ (l : List Rat) : Rat := l.maximum.unbot' 0

/-- `dff.groupby("MonthStart", as_index=False)[var].agg` with aggregation `f`:
one (month bucket, aggregated value) pair per distinct month, ascending. -/
def groupApply (rows : List Obs) (var : String) (f : List Rat → Rat) : List (Nat × Rat) :=
  (monthKeys rows).map fun k => (k, f ((groupRows rows k).map fun r => r.get var))

/-- The monthly bar figure: its (month, value) series, title and template. -/
structure BarFig where
  data : List (Nat × Rat)
  title : String
  template : String
deriving DecidableEq, Repr

/-- `update_bar(start_date, end_date, var, agg, theme)` of the source: filter,
then group by calendar month applying sum, mean, or - for any other `agg`
value - max. -/
def update_bar (rows : List Obs) (startDate endDate : Option Nat)
    (var agg template : String) : BarFig :=
  let dff := (_filter rows startDate endDate).rows
  let pair : List (Nat × Rat) × String :=
    if agg = "sum" then (groupApply dff var sumQ, "Suma mensual")
    else if agg = "mean" then (groupApply dff var meanQ, "Promedio mensual")
    else (groupApply dff var maxQ, "Máximo mensual")
  ⟨pair.1, pair.2 ++ ": " ++ var, template⟩

/-- `resample("M").sum()` over the selected source columns: one bucket for
every calendar month from the first to the last month present (empty months
included, summing to 0), each holding the per-column sums. -/
def resampleMonthlySum (rows : List Obs) (cols : List String) : List (Nat × List Rat) :=
  match rows.map fun r => monthIdx r.t with
  | [] => []
  | k0 :: kr =>
    let lo := kr.foldl Nat.min k0
    let hi := kr.foldl Nat.max k0
    (List.range (hi + 1 - lo)).map fun i =>
      (lo + i, cols.map fun c => ((groupRows rows (lo + i)).map fun r => r.get c).sum)

/-- The per-source figure: either the "no selection" placeholder or a chart in
one of the two view modes with its monthly per-source series. -/
inductive SrcFig where
  | empty (title template : String)
  | chart (view : String) (monthly : List (Nat × List Rat)) (title template : String)
deriving DecidableEq, Repr

/-- The view mode of a per-source figure, when it is a chart. -/
def SrcFig.viewMode : SrcFig → Option String
  | .empty _ _ => none
  | .chart v _ _ _ => some v

/-- `update_sources(start_date, end_date, sources_sel, n_area, n_lines, theme)`
of the source: empty selection short-circuits to a placeholder figure; else the
view is "lines" exactly when `(n_lines or 0) > (n_area or 0)`, and the selected
columns are resampled monthly. -/
def update_sources (rows : List Obs) (startDate endDate : Option Nat)
    (sources_sel : List String) (n_area n_lines : Option Nat) (template : String) : SrcFig :=
  let dff := (_filter rows startDate endDate).rows
  if sources_sel.isEmpty then
    .empty "Selecciona al menos una fuente" template
  else
    let view := if (n_lines.getD 0) > (n_area.getD 0) then "lines" else "area"
    .chart view (resampleMonthlySum dff sources_sel)
      ("Producción por fuente (mensual, " ++
        (if view = "area" then "área apilada" else "líneas") ++ ")")
      template

/-- The weekday names having at least one row in the frame: the row index of
`pivot_table(index="Weekday", ...)` before reindexing. -/
def weekdaysPresent (rows : List Obs) : List String :=
  (rows.map fun r => weekdayName r.t).dedup

/-- The distinct hours present in the frame, ascending: the column index of
`pivot_table(columns="Hour", ...)`; it is NOT reindexed to 0..23. -/
def pivotHours (rows : List Obs) : List Nat :=
  sortedKeys (rows.map fun r => hourOf r.t)

/-- The rows of a frame at one (weekday, hour) combination. -/
def comboRows (rows : List Obs) (w : String) (h : Nat) : List Obs :=
  rows.filter fun r => weekdayName r.t == w && hourOf r.t == h

/-- One cell of the raw pivot: the mean over the combination's rows, or a hole
(NaN, modelled as `none`) when the combination has no rows. -/
def pivotCell (rows : List Obs) (var : String) (w : String) (h : Nat) : Option Rat :=
  let g := comboRows rows w h
  if g.isEmpty then none else some (meanQ (g.map fun r => r.get var))

/-- One cell after `reindex(order, axis=0, fill_value=0.0)`: a weekday absent
from the pivot's index is filled with 0.0 in every column; a present weekday
keeps its pivot row, holes included. -/
def reindexCell (rows : List Obs) (var : String) (w : String) (h : Nat) : Option Rat :=
  if w ∈ weekdaysPresent rows then pivotCell rows var w h else some 0

/-- The heatmap figure: hour axis, weekday axis, cell grid, title, template. -/
structure HeatFig where
  x : List Nat
  y : List String
  z : List (List (Option Rat))
  title : String
  template : String
deriving DecidableEq, Repr

/-- `update_heatmap(start_date, end_date, var, theme)` of the source: filter,
pivot mean by weekday and hour, reindex the rows to canonical weekday order. -/
def update_heatmap (rows : List Obs) (startDate endDate : Option Nat)
    (var template : String) : HeatFig :=
  let dff := (_filter rows startDate endDate).rows
  ⟨pivotHours dff, weekdayNames,
    weekdayNames.map fun w => (pivotHours dff).map fun h => reindexCell dff var w h,
    "Promedio por hora vs día: " ++ var, template⟩

/-! Shared concrete rows used by the concrete-scenario theorems. -/

/-- Row at 2023-01-01T00:00 with consumption 100 (day 19358 since epoch). -/
def obsJan1 : Obs := ⟨19358 * dayNs, [("Consumption", 100)]⟩

/-- Row at 2023-01-02T00:00 with consumption 200 (day 19359 since epoch). -/
def obsJan2 : Obs := ⟨19359 * dayNs, [("Consumption", 200)]⟩

/-- Row at 1970-01-01T23:59:59.5: inside the end day, but past 23:59:59. -/
def obsLastHalfSecond : Obs := ⟨dayNs - secNs / 2, [("Consumption", 1)]⟩

/-- Row at 1970-01-01T05:00, so the only hour present in the data is 5. -/
def obsHour5 : Obs := ⟨5 * hourNs, [("Consumption", 1)]⟩

/-! Helper lemmas. -/

/-- Sorted deduplication is determined by the multiset of keys. -/
theorem sortedKeys_perm {l1 l2 : List Nat} (h : l1.Perm l2) :
    sortedKeys l1 = sortedKeys l2 :=
  List.eq_of_perm_of_sorted
    ((List.perm_insertionSort _ _).trans (h.dedup.trans (List.perm_insertionSort _ _).symm))
    (List.sorted_insertionSort _ _) (List.sorted_insertionSort _ _)

/-- Sorted keys are sorted. -/
theorem sortedKeys_sorted (l : List Nat) : List.Sorted (· ≤ ·) (sortedKeys l) :=
  List.sorted_insertionSort _ _

/-- Sorted keys carry no duplicates. -/
theorem sortedKeys_nodup (l : List Nat) : (sortedKeys l).Nodup :=
  ((List.perm_insertionSort _ _).nodup_iff).mpr l.nodup_dedup

/-- Membership in the sorted keys is membership in the raw key list. -/
theorem sortedKeys_mem (l : List Nat) (k : Nat) : k ∈ sortedKeys l ↔ k ∈ l := by
  rw [sortedKeys, (List.perm_insertionSort _ _).mem_iff, List.mem_dedup]

/-- `List.maximum` is invariant under permutation. -/
theorem maximum_perm {l1 l2 : List Rat} (h : l1.Perm l2) : l1.maximum = l2.maximum := by
  induction h with
  | nil => rfl
  | cons a _ ih => rw [List.maximum_cons, List.maximum_cons, ih]
  | swap a b l =>
      rw [List.maximum_cons, List.maximum_cons, List.maximum_cons, List.maximum_cons,
        max_left_comm]
  | trans _ _ ih1 ih2 => exact ih1.trans ih2

/-- The max aggregation is invariant under permutation of the group. -/
theorem maxQ_perm {l1 l2 : List Rat} (h : l1.Perm l2) : maxQ l1 = maxQ l2 := by
  unfold maxQ
  rw [maximum_perm h]

/-- The mean aggregation is invariant under permutation of the group. -/
theorem meanQ_perm {l1 l2 : List Rat} (h : l1.Perm l2) : meanQ l1 = meanQ l2 := by
  unfold meanQ
  rw [h.sum_eq, h.length_eq]

/-- Monthly grouping with a permutation-invariant aggregation is invariant
under permutation of the rows. -/
theorem groupApply_perm {l1 l2 : List Obs} (h : l1.Perm l2) (var : String)
    (f : List Rat → Rat) (hf : ∀ a b : List Rat, a.Perm b → f a = f b) :
    groupApply l1 var f = groupApply l2 var f := by
  unfold groupApply monthKeys
  rw [sortedKeys_perm (h.map _)]
  refine List.map_congr_left fun k _ => ?_
  exact congrArg (Prod.mk k) (hf _ _ ((h.filter _).map _))

/-- The rows selected by `_filter` are permuted when the input is permuted. -/
theorem _filter_rows_perm {l1 l2 : List Obs} (h : l1.Perm l2) (s e : Option Nat) :
    ((_filter l1 s e).rows).Perm ((_filter l2 s e).rows) := by
  cases s <;> cases e
  · exact h
  · exact h
  · exact h
  · exact h.filter _

/-! Claims. -/

/-- Claim C1, counterexample: with start = end = day 0, the row at
1970-01-01T23:59:59.5 satisfies the claimed bound `t < end + 1 day`, so the
spec filter keeps it, but `_filter` drops it (its bound is
`t ≤ end + 1 day - 1 second`); the claim as stated is false at this input. -/
theorem c1_counterexample :
    (0 : Nat) ≤ 0 ∧
    (_filter [obsLastHalfSecond] (some 0) (some 0)).rows = [] ∧
    rangeFilterSpec [obsLastHalfSecond] 0 0 = [obsLastHalfSecond] := by
  decide

/-- Claim C1, amended: for start ≤ end, `_filter` returns the ordered
subsequence of rows whose timestamp t satisfies
start ≤ t ≤ end + 1 day - 1 second (not t < end + 1 day). -/
theorem c1_filter_range (rows : List Obs) (s e : Nat) (hse : s ≤ e) :
    ((_filter rows (some s) (some e)).rows).Sublist rows ∧
    ∀ r : Obs, r ∈ (_filter rows (some s) (some e)).rows ↔
      r ∈ rows ∧ s * dayNs ≤ r.t ∧ r.t ≤ e * dayNs + dayNs - secNs := by
  constructor
  · exact List.filter_sublist _
  · intro r
    simp [_filter, List.mem_filter, and_assoc]

/-- Witness for C1's amended theorem at a concrete dataset and range. -/
theorem c1_filter_range_witness :
    (0 : Nat) ≤ 0 ∧
    (((_filter [obsJan1] (some 0) (some 0)).rows).Sublist [obsJan1] ∧
     ∀ r : Obs, r ∈ (_filter [obsJan1] (some 0) (some 0)).rows ↔
       r ∈ [obsJan1] ∧ 0 * dayNs ≤ r.t ∧ r.t ≤ 0 * dayNs + dayNs - secNs) :=
  ⟨Nat.le_refl 0, c1_filter_range [obsJan1] 0 0 (Nat.le_refl 0)⟩

/-- Claim C7: when either bound is absent, `_filter` returns every row. -/
theorem c7_filter_none (rows : List Obs) (s e : Option Nat)
    (h : s = none ∨ e = none) : (_filter rows s e).rows = rows := by
  rcases h with h | h
  · subst h
    cases e <;> rfl
  · subst h
    cases s <;> rfl

/-- Witness for C7 at a concrete dataset with an absent start bound. -/
theorem c7_filter_none_witness :
    ((none : Option Nat) = none ∨ (some 5 : Option Nat) = none) ∧
    (_filter [obsJan1] none (some 5)).rows = [obsJan1] :=
  ⟨Or.inl rfl, c7_filter_none [obsJan1] none (some 5) (Or.inl rfl)⟩

/-- Claim C8, counterexample: with both bounds absent, `_filter` returns the
source frame object itself (`return dfin`), not a fresh copy, so the result is
not independent of the source at this input. -/
theorem c8_counterexample : (_filter [obsJan1] none none).fresh ≠ true := by
  decide

/-- Claim C8, amended: `_filter` returns a fresh, independent copy exactly when
both bounds are present; when either bound is absent it returns the source
frame object itself, unfiltered (the pure function never mutates its input). -/
theorem c8_filter_copy (rows : List Obs) (a b : Nat) (s e : Option Nat)
    (h : s = none ∨ e = none) :
    (_filter rows (some a) (some b)).fresh = true ∧
    (_filter rows s e).fresh = false ∧ (_filter rows s e).rows = rows := by
  refine ⟨rfl, ?_, ?_⟩ <;>
    (rcases h with h | h
     · subst h
       cases e <;> rfl
     · subst h
       cases s <;> rfl)

/-- Witness for C8's amended theorem at a concrete dataset. -/
theorem c8_filter_copy_witness :
    ((none : Option Nat) = none ∨ (none : Option Nat) = none) ∧
    ((_filter [obsJan1] (some 3) (some 7)).fresh = true ∧
     (_filter [obsJan1] none none).fresh = false ∧
     (_filter [obsJan1] none none).rows = [obsJan1]) :=
  ⟨Or.inl rfl, c8_filter_copy [obsJan1] 3 7 none none (Or.inl rfl)⟩

/-- Claim C9: the theme produced by `switch_theme` depends only on which
control triggered the callback, never on the click counts; it is the dark
template exactly when the dark button was the trigger (no trigger, as on
initial load, gives the light template). -/
theorem c9_theme_trigger_only (nl nd nl' nd' : Option Nat) (trig : Option String) :
    switch_theme nl nd trig = switch_theme nl' nd' trig ∧
    (switch_theme nl nd trig = "plotly_dark" ↔ trig = some "btn-dark") := by
  unfold switch_theme
  refine ⟨rfl, ?_⟩
  split
  · simp [*]
  · exact iff_of_false (by decide) (by assumption)

/-- Claim C3, counterexample: with click counts (1, 2) and the light button as
trigger, `switch_theme` returns the light template, while the claimed
count-comparison rule returns the dark one; the theme toggle does not follow
the count rule. -/
theorem c3_counterexample :
    switch_theme (some 1) (some 2) (some "btn-light") = "plotly" ∧
    themeByCountsSpec (some 1) (some 2) = "plotly_dark" := by
  decide

/-- Claim C3, amended: the area/lines toggle of `update_sources` is decided by
comparing click counts (lines wins exactly when its count is strictly greater;
ties give area), but `switch_theme` ignores the counts and returns the dark
template exactly when the dark button was the trigger. -/
theorem c3_toggles (rows : List Obs) (s e : Option Nat) (sel : List String)
    (nA nL nl nd : Option Nat) (tpl : String) (trig : Option String)
    (hsel : sel ≠ []) :
    (update_sources rows s e sel nA nL tpl).viewMode =
      some (if nA.getD 0 < nL.getD 0 then "lines" else "area") ∧
    switch_theme nl nd trig =
      (if trig = some "btn-dark" then "plotly_dark" else "plotly") := by
  refine ⟨?_, rfl⟩
  cases sel with
  | nil => exact absurd rfl hsel
  | cons a l => rfl

/-- Witness for C3's amended theorem at concrete counts and selection. -/
theorem c3_toggles_witness :
    (["Wind"] : List String) ≠ [] ∧
    ((update_sources [obsJan1] none none ["Wind"] (some 2) (some 1) "plotly").viewMode =
      some (if (some 2 : Option Nat).getD 0 < (some 1 : Option Nat).getD 0
            then "lines" else "area") ∧
     switch_theme (some 0) (some 0) none =
      (if (none : Option String) = some "btn-dark" then "plotly_dark" else "plotly")) :=
  ⟨by decide,
   c3_toggles [obsJan1] none none ["Wind"] (some 2) (some 1) (some 0) (some 0)
     "plotly" none (by decide)⟩

/-- Claim C4: with an empty source selection, `update_sources` returns the
"no selection" placeholder figure for any date range and theme, performing no
aggregation and raising nothing. -/
theorem c4_empty_selection (rows : List Obs) (s e : Option Nat)
    (nA nL : Option Nat) (tpl : String) :
    update_sources rows s e [] nA nL tpl =
      .empty "Selecciona al menos una fuente" tpl := rfl

/-- Claim C5: on the two-row dataset (2023-01-01T00:00, consumption 100;
2023-01-02T00:00, consumption 200), filtering with start = end = 2023-01-01
returns exactly the first row, and monthly-sum aggregation of the unfiltered
dataset for "Consumption" yields the single bucket January 2023 with value
300. -/
theorem c5_scenario :
    (_filter [obsJan1, obsJan2] (some 19358) (some 19358)).rows = [obsJan1] ∧
    civilFromDays 19358 = (2023, 1, 1) ∧
    (update_bar [obsJan1, obsJan2] none none "Consumption" "sum" "plotly").data =
      [(2023 * 12, 300)] := by
  refine ⟨by rfl, by rfl, ?_⟩
  have h1 : (update_bar [obsJan1, obsJan2] none none "Consumption" "sum" "plotly").data
      = [(2023 * 12, sumQ [100, 200])] := by rfl
  rw [h1]
  norm_num [sumQ]

/-- Claim C6: the monthly (month, value) series of `update_bar` is invariant
under permutation of the observation rows, for every bound pair, variable and
aggregation choice. -/
theorem c6_perm_invariant (l1 l2 : List Obs) (h : l1.Perm l2) (s e : Option Nat)
    (var agg tpl : String) :
    update_bar l1 s e var agg tpl = update_bar l2 s e var agg tpl := by
  have hp := _filter_rows_perm h s e
  have hsum := groupApply_perm hp var sumQ fun a b hab => hab.sum_eq
  have hmean := groupApply_perm hp var meanQ fun a b hab => meanQ_perm hab
  have hmax := groupApply_perm hp var maxQ fun a b hab => maxQ_perm hab
  simp only [update_bar]
  by_cases h1 : agg = "sum"
  · simp [h1, hsum]
  · by_cases h2 : agg = "mean"
    · simp [h1, h2, hmean]
    · simp [h1, h2, hmax]

/-- Witness for C6 at a concrete transposition of the two-row dataset. -/
theorem c6_perm_invariant_witness :
    ([obsJan2, obsJan1].Perm [obsJan1, obsJan2]) ∧
    update_bar [obsJan2, obsJan1] none none "Consumption" "sum" "plotly" =
      update_bar [obsJan1, obsJan2] none none "Consumption" "sum" "plotly" :=
  ⟨by decide,
   c6_perm_invariant [obsJan2, obsJan1] [obsJan1, obsJan2] (by decide) none none
     "Consumption" "sum" "plotly"⟩

/-- Claim C10: any aggregation value other than "sum" and "mean" (not only
"max") takes the max branch of `update_bar`; nothing rejects unexpected
values. -/
theorem c10_default_max (rows : List Obs) (s e : Option Nat) (var agg tpl : String)
    (h1 : agg ≠ "sum") (h2 : agg ≠ "mean") :
    update_bar rows s e var agg tpl =
      ⟨groupApply (_filter rows s e).rows var maxQ,
       "Máximo mensual" ++ ": " ++ var, tpl⟩ := by
  simp [update_bar, h1, h2]

/-- Witness for C10 at the unexpected aggregation value "median". -/
theorem c10_default_max_witness :
    ("median" ≠ "sum") ∧ ("median" ≠ "mean") ∧
    update_bar [obsJan1, obsJan2] none none "Consumption" "median" "plotly" =
      ⟨groupApply (_filter [obsJan1, obsJan2] none none).rows "Consumption" maxQ,
       "Máximo mensual" ++ ": " ++ "Consumption", "plotly"⟩ :=
  ⟨by decide, by decide,
   c10_default_max [obsJan1, obsJan2] none none "Consumption" "median" "plotly"
     (by decide) (by decide)⟩

/-- Claim C2, counterexample: on a dataset whose only hour is 5, the heatmap
has the single column [5], not the 24 columns 0..23 the claim asserts; only
the weekday axis is reindexed, never the hour axis. -/
theorem c2_counterexample :
    (update_heatmap [obsHour5] none none "Consumption" "plotly").x = [5] ∧
    [5] ≠ List.range 24 := by
  decide

/-- Claim C2, amended: the heatmap's weekday axis is always the canonical
Monday..Sunday list; its hour axis is exactly the sorted duplicate-free list of
hours occurring in the filtered data (so fewer than 24 columns when hours are
missing); every cell of a weekday absent from the data holds the fill value 0;
but a present weekday at a present hour with no observation for that
combination yields an empty (NaN) cell, not 0. -/
theorem c2_heatmap (rows : List Obs) (s e : Option Nat) (var tpl w : String)
    (hr : Nat) :
    (update_heatmap rows s e var tpl).y = weekdayNames ∧
    List.Sorted (· ≤ ·) (update_heatmap rows s e var tpl).x ∧
    (update_heatmap rows s e var tpl).x.Nodup ∧
    (hr ∈ (update_heatmap rows s e var tpl).x ↔
      ∃ r ∈ (_filter rows s e).rows, hourOf r.t = hr) ∧
    (update_heatmap rows s e var tpl).z =
      weekdayNames.map (fun w2 =>
        (update_heatmap rows s e var tpl).x.map fun h2 =>
          reindexCell (_filter rows s e).rows var w2 h2) ∧
    (w ∉ weekdaysPresent (_filter rows s e).rows →
      reindexCell (_filter rows s e).rows var w hr = some 0) ∧
    (w ∈ weekdaysPresent (_filter rows s e).rows →
      comboRows (_filter rows s e).rows w hr = [] →
      reindexCell (_filter rows s e).rows var w hr = none) := by
  refine ⟨rfl, sortedKeys_sorted _, sortedKeys_nodup _, ?_, rfl, ?_, ?_⟩
  · show hr ∈ pivotHours (_filter rows s e).rows ↔ _
    rw [pivotHours, sortedKeys_mem]
    simp [List.mem_map, eq_comm]
  · intro hw
    rw [reindexCell, if_neg hw]
  · intro hw hc
    rw [reindexCell, if_pos hw, pivotCell]
    simp [hc]

/-- Witness for C2's amended theorem on the single-row hour-5 dataset, with
the absent weekday Monday and the present hour 5. -/
theorem c2_heatmap_witness :
    (update_heatmap [obsHour5] none none "Consumption" "plotly").y = weekdayNames ∧
    List.Sorted (· ≤ ·) (update_heatmap [obsHour5] none none "Consumption" "plotly").x ∧
    (update_heatmap [obsHour5] none none "Consumption" "plotly").x.Nodup ∧
    (5 ∈ (update_heatmap [obsHour5] none none "Consumption" "plotly").x ↔
      ∃ r ∈ (_filter [obsHour5] none none).rows, hourOf r.t = 5) ∧
    (update_heatmap [obsHour5] none none "Consumption" "plotly").z =
      weekdayNames.map (fun w2 =>
        (update_heatmap [obsHour5] none none "Consumption" "plotly").x.map fun h2 =>
          reindexCell (_filter [obsHour5] none none).rows "Consumption" w2 h2) ∧
    ("Monday" ∉ weekdaysPresent (_filter [obsHour5] none none).rows →
      reindexCell (_filter [obsHour5] none none).rows "Consumption" "Monday" 5 = some 0) ∧
    ("Monday" ∈ weekdaysPresent (_filter [obsHour5] none none).rows →
      comboRows (_filter [obsHour5] none none).rows "Monday" 5 = [] →
      reindexCell (_filter [obsHour5] none none).rows "Consumption" "Monday" 5 = none) :=
  c2_heatmap [obsHour5] none none "Consumption" "plotly" "Monday" 5

end EntregaDash
